import Mathlib

/-!
Verification of the content-generation module (`content.py`) of the scmdb
genomics visualization service.  The Python functions are shallowly embedded
as Lean definitions: pandas/numpy numeric values become `ℚ` (with `Option ℚ`
standing for float NaN / missing values), Python exceptions become an
explicit `Except PyErr` result, and the SQLite/file stores become explicit
list-valued parameters holding the rows the code would read.

The rational-number operations are restored to their definitional
reducibility so that concrete runs of the embedded functions can be settled
by kernel evaluation (`decide`).
-/

attribute [local semireducible] Rat.add Rat.mul Rat.inv Rat.sub Rat.ofScientific

deriving instance DecidableEq for Except

/-- Python exception kinds that the embedded code can raise.
`failToGraph` is the repository's own `FailToGraphException`; the others are
builtin Python exceptions raised by indexing / parsing / `dict(None)`. -/
inductive PyErr where
  | failToGraph
  | typeErr
  | keyErr
  | indexErr
  | valueErr
  | zeroDivErr
deriving DecidableEq, Repr

/-- Plotly trace visibility: Python `True` versus the string `"legendonly"`. -/
inductive Vis where
  | shown
  | legendOnly
deriving DecidableEq, Repr

/-- Result of `set_color_by_percentile`: either the string `'grey'` (returned
for NaN input) or a numeric mCH value that Plotly maps through the
colorscale. -/
inductive MchColor where
  | grey
  | num (q : ℚ)
deriving DecidableEq, Repr

/-- Python list indexing `xs[i]`: nonnegative indices from the front,
negative indices from the back, `IndexError` out of range. -/
def pyIndex {α : Type} (xs : List α) (i : ℤ) : Except PyErr α :=
  if h : 0 ≤ i ∧ i.toNat < xs.length then
    Except.ok (xs.get ⟨i.toNat, h.2⟩)
  else if h' : i < 0 ∧ 0 ≤ i + xs.length ∧ (i + xs.length).toNat < xs.length then
    Except.ok (xs.get ⟨(i + xs.length).toNat, h'.2.2⟩)
  else
    Except.error PyErr.indexErr

/-- Parse an unsigned run of decimal digits (helper for the numeric parsers). -/
def digitsVal : List Char → Option ℕ
  | [] => none
  | cs => cs.foldlM (fun acc c => if c.isDigit then some (acc * 10 + (c.toNat - 48)) else none) 0

/-- Python `int(s)` on a string: an optional sign followed by digits only
(`ValueError` otherwise, modelled as `none`). -/
def pyIntOfString (s : String) : Option ℤ :=
  match s.data with
  | '-' :: rest => (digitsVal rest).map (fun n => -(n : ℤ))
  | '+' :: rest => (digitsVal rest).map (fun n => (n : ℤ))
  | cs => (digitsVal cs).map (fun n => (n : ℤ))

/-- `pandas.to_numeric(..., errors='coerce')` on a string cell: decimal
numerals (optional sign, optional fractional part); anything else coerces to
NaN (`none`). -/
def toNumericQ (s : String) : Option ℚ :=
  let core : List Char → Option ℚ := fun cs =>
    match cs.span (· ≠ '.') with
    | (intPart, []) => (digitsVal intPart).map (fun n => (n : ℚ))
    | (intPart, _dot :: fracPart) =>
      match digitsVal intPart, digitsVal fracPart with
      | some n, some f => some ((n : ℚ) + (f : ℚ) / ((10 : ℚ) ^ fracPart.length))
      | _, _ => none
  match s.data with
  | '-' :: rest => (core rest).map (fun q => -q)
  | '+' :: rest => core rest
  | cs => core cs

/-- Python `int(x)` on a float: truncation toward zero. -/
def truncInt (q : ℚ) : ℤ :=
  if 0 ≤ q then q.floor else -((-q).floor)

/-- Python 3 `round(x)`: round half to even (banker's rounding). -/
def roundHalfEven (q : ℚ) : ℤ :=
  let f := q - (q.floor : ℚ)
  if f < 1/2 then q.floor
  else if 1/2 < f then q.floor + 1
  else if q.floor % 2 = 0 then q.floor else q.floor + 1

/-- Python `round(x, n)`: round half to even at `n` decimal places. -/
def roundScaled (q : ℚ) (n : ℕ) : ℚ :=
  (roundHalfEven (q * (10 : ℚ) ^ n) : ℚ) / (10 : ℚ) ^ n

/-- `numpy.linspace(a, b, num)`: `num` evenly spaced points from `a` to `b`,
both endpoints included (for `num = 1` just `[a]`). -/
def linspaceQ (a b : ℚ) (num : ℕ) : List ℚ :=
  if num = 0 then []
  else if num = 1 then [a]
  else (List.range num).map (fun i => a + (b - a) * (i : ℚ) / ((num : ℚ) - 1))

/-- `generate_cluster_colors(num)` before the final `random.sample` shuffle:
`'hsl(' + str(round(h)) + ',50%,50%)'` for `h` in `linspace(0, 360, num)`.
The shuffle is a permutation of this list, so theorems about the function
quantify over permutations of this base list. -/
def generateClusterColors (num : ℕ) : List String :=
  (linspaceQ 0 360 num).map (fun h => "hsl(" ++ toString (roundHalfEven h) ++ ",50%,50%)")

/-- `v < o` for a possibly-NaN right operand: any comparison with NaN is
False in Python/numpy. -/
def qLtO (v : ℚ) (o : Option ℚ) : Bool :=
  match o with
  | some w => decide (v < w)
  | none => false

/-- `v > o` with NaN-is-False semantics. -/
def qGtO (v : ℚ) (o : Option ℚ) : Bool :=
  match o with
  | some w => decide (w < v)
  | none => false

/-- `set_color_by_percentile(this, start, end)`: `'grey'` for NaN, else clamp
into `[start, end]` (the percentile bounds are returned themselves when the
value lies outside them). -/
def setColorByPercentile (this s e : Option ℚ) : MchColor :=
  match this with
  | none => MchColor.grey
  | some v =>
    if qLtO v s then MchColor.num (s.getD 0)
    else if qGtO v e then MchColor.num (e.getD 0)
    else MchColor.num v

/-- `pandas.Series.quantile(q)` with the default linear interpolation:
sort the values, take position `h = q * (n - 1)` and interpolate linearly
between the neighbouring order statistics.  `none` for an empty series
(pandas returns NaN). -/
def quantileQ (xs : List ℚ) (q : ℚ) : Option ℚ :=
  let ys := List.insertionSort (· ≤ ·) xs
  match ys with
  | [] => none
  | _ :: _ =>
    let n := ys.length
    let hq := q * ((n : ℚ) - 1)
    let i := hq.floor.toNat
    let frac := hq - (hq.floor : ℚ)
    let a := ys.getD i 0
    let b := ys.getD (i + 1) a
    some (a + frac * (b - a))

/-- One row of `tsne_points_ordered.csv` as produced by `csv.DictReader` in
`get_cluster_points`: every cell is a string.  `extras` holds any further
CSV columns (accessed by `point[grouping]` in the cluster plot). -/
structure ClusterPoint where
  samp : String
  tsne_x : String
  tsne_y : String
  cluster_label : String
  cluster_name : String
  cluster_ordered : String
  cluster_ortholog : String
  biosample : String
  layer : String
  extras : List (String × String)
deriving DecidableEq, Repr

/-- One row of a per-gene measurement file as read by `pandas.read_csv` in
`get_gene_mch` (columns `gene, samp, original, normalized`; `none` models a
NaN cell). -/
structure MchRow where
  gene : String
  samp : String
  original : Option ℚ
  normalized : Option ℚ
deriving DecidableEq, Repr

/-- A row of `pandas.merge(cluster[...], mch[...], on='samp', how='left')`
before the `cluster_ordered` numeric coercion: embedding columns are still
strings; `original`/`normalized` are `none` for unmatched samples (NaN). -/
structure MergedRow where
  samp : String
  tsne_x : String
  tsne_y : String
  cluster_label : String
  cluster_name : String
  cluster_ordered : String
  cluster_ortholog : String
  original : Option ℚ
  normalized : Option ℚ
deriving DecidableEq, Repr

/-- A merged row after `pandas.to_numeric(..., errors='coerce')` on
`cluster_ordered` (malformed values become NaN = `none`). -/
structure MRow where
  samp : String
  tsne_x : String
  tsne_y : String
  cluster_label : String
  cluster_name : String
  cluster_ordered : Option ℚ
  cluster_ortholog : String
  original : Option ℚ
  normalized : Option ℚ
deriving DecidableEq, Repr

/-- The merged row built from embedding row `c` and measurement row `m`. -/
def mkMergedRow (c : ClusterPoint) (o n : Option ℚ) : MergedRow :=
  { samp := c.samp, tsne_x := c.tsne_x, tsne_y := c.tsne_y,
    cluster_label := c.cluster_label, cluster_name := c.cluster_name,
    cluster_ordered := c.cluster_ordered, cluster_ortholog := c.cluster_ortholog,
    original := o, normalized := n }

/-- Output rows of the left outer join (`pandas.merge(..., how='left')` on
`samp`) contributed by one embedding row: NaN (`none`) values when no
measurement matches, otherwise one row per matching measurement. -/
def mergeOne (mch : List MchRow) (c : ClusterPoint) : List MergedRow :=
  let ms := mch.filter (fun m => m.samp = c.samp)
  if ms.isEmpty then [mkMergedRow c none none]
  else ms.map (fun m => mkMergedRow c m.original m.normalized)

/-- The full left join: one block of output rows per embedding row. -/
def mergeLeft (cluster : List ClusterPoint) (mch : List MchRow) : List MergedRow :=
  cluster.flatMap (mergeOne mch)

/-- Lines 293–297 of `content.py`: when outliers are not wanted, compute the
empirical 99th percentile of the (non-null) `normalized` column of the
joined set and keep only the rows whose `normalized` value is strictly below
it.  NaN values compare False, so they are dropped; if the percentile itself
is NaN (no non-null values) every comparison is False and nothing is kept. -/
def outlierFilterStep (rows : List MergedRow) : List MergedRow :=
  match quantileQ (rows.filterMap MergedRow.normalized) (99/100) with
  | none => []
  | some q => rows.filter (fun r => match r.normalized with
      | some v => decide (v < q)
      | none => false)

/-- `pandas.to_numeric(dataframe_merged['cluster_ordered'], errors='coerce')`
applied to one row. -/
def coerceRow (r : MergedRow) : MRow :=
  { samp := r.samp, tsne_x := r.tsne_x, tsne_y := r.tsne_y,
    cluster_label := r.cluster_label, cluster_name := r.cluster_name,
    cluster_ordered := toNumericQ r.cluster_ordered,
    cluster_ortholog := r.cluster_ortholog,
    original := r.original, normalized := r.normalized }

/-- Row comparison for the final `sort_values(by='cluster_ordered',
ascending=True)`: numeric ascending with NaN sorted last. -/
def rowLeB (a b : MRow) : Bool :=
  match a.cluster_ordered, b.cluster_ordered with
  | none, none => true
  | none, some _ => false
  | some _, none => true
  | some x, some y => decide (x ≤ y)

/-- The sort predicate as a decidable relation. -/
def rowLeP (a b : MRow) : Prop := rowLeB a b = true

instance : DecidableRel rowLeP := fun a b => by unfold rowLeP; infer_instance

/-- `sort_values(by='cluster_ordered', ascending=True)` (the claims we prove
only use that this is a permutation, so the tie-breaking order of the
unstable pandas quicksort is immaterial). -/
def sortRows (l : List MRow) : List MRow := List.insertionSort rowLeP l

/-- `get_gene_mch(species, gene, outliers)`.  The file-system checks
`species_exists` / `gene_exists` are modelled by the two boolean parameters;
`cluster` is the content of `tsne_points_ordered.csv` and `mch` the content
of the matched measurement file. -/
def getGeneMch (speciesOk geneOk : Bool) (cluster : List ClusterPoint)
    (mch : List MchRow) (outliers : Bool) : List MRow :=
  if !speciesOk || !geneOk then []
  else
    let merged := mergeLeft cluster mch
    let merged := if outliers then merged else outlierFilterStep merged
    sortRows (merged.map coerceRow)

/-- One row of a per-species `gene_names` SQLite table. -/
structure GeneRec where
  geneID : String
  geneName : String
deriving DecidableEq, Repr

/-- ASCII lower-casing of one character (SQLite LIKE folds ASCII case). -/
def lowerChar (c : Char) : Char :=
  if 'A' ≤ c ∧ c ≤ 'Z' then Char.ofNat (c.toNat + 32) else c

/-- SQLite `column LIKE pat || '%'`: case-insensitive prefix match (the
default LIKE collation folds ASCII case). -/
def likeMatch (pat s : String) : Bool :=
  (pat.data.map lowerChar).isPrefixOf (s.data.map lowerChar)

/-- What `gene_id_to_name` evaluates to on the non-raising paths: the empty
list sentinel for a missing species, or the full metadata record of the first
matching row. -/
inductive GeneNameResult where
  | emptySentinel
  | record (r : GeneRec)
deriving DecidableEq, Repr

/-- `gene_id_to_name(species, query)`.  The species-directory check is the
boolean parameter and `db` is the `gene_names` table.  A missing species
returns the `[]` sentinel; otherwise the first row with `geneID LIKE
query || '%'` is fetched, and — exactly as in the source — when `fetchone()`
yields no row, `dict(query_results)` is `dict(None)`, which raises
`TypeError`. -/
def geneIdToName (speciesOk : Bool) (db : List GeneRec) (query : String) :
    Except PyErr GeneNameResult :=
  if !speciesOk then Except.ok GeneNameResult.emptySentinel
  else
    match db.find? (fun r => likeMatch query r.geneID) with
    | some r => Except.ok (GeneNameResult.record r)
    | none => Except.error PyErr.typeErr

/-- The plot builders' `gene_id_to_name(...)['geneName']`: subscripting the
`[]` sentinel with a string raises `TypeError`. -/
def geneNameOf (speciesOk : Bool) (db : List GeneRec) (query : String) :
    Except PyErr String :=
  match geneIdToName speciesOk db query with
  | Except.ok (GeneNameResult.record r) => Except.ok r.geneName
  | Except.ok GeneNameResult.emptySentinel => Except.error PyErr.typeErr
  | Except.error e => Except.error e

/-- One row of the `orthologs` SQLite table. -/
structure OrthologRow where
  mmu_gID : String
  hsa_gID : String
deriving DecidableEq, Repr

/-- Result of `find_orthologs`: the null pair `{'mmu_gID': None,
'hsa_gID': None}` or a full table row. -/
inductive OrthoResult where
  | nullPair
  | row (r : OrthologRow)
deriving DecidableEq, Repr

/-- `find_orthologs(mmu_gid, hsa_gid)`: empty strings are falsy, the query
key is `mmu_gID` when `mmu_gid` is non-empty (`'mmu_gID' if mmu_gid else
'hsa_gID'`), the query value is `mmu_gid or hsa_gid`, and the first row
whose chosen column equals the value is returned (`fetchone`). -/
def findOrthologs (db : List OrthologRow) (mmu_gid hsa_gid : String) : OrthoResult :=
  if mmu_gid = "" ∧ hsa_gid = "" then OrthoResult.nullPair
  else
    let useMmu := mmu_gid ≠ ""
    let value := if mmu_gid ≠ "" then mmu_gid else hsa_gid
    match db.find? (fun r => (if useMmu then r.mmu_gID else r.hsa_gID) = value) with
    | none => OrthoResult.nullPair
    | some r => OrthoResult.row r

/-- Characters stripped by `text.strip('<br>')`: Python `str.strip` removes
any of the given characters from both ends. -/
def brChar (c : Char) : Bool := c = '<' || c = 'b' || c = 'r' || c = '>'

/-- `build_hover_text(labels)`: concatenate `'k: v<br>'` fragments and strip
the characters of `'<br>'` from both ends. -/
def buildHoverText (labels : List (String × String)) : String :=
  let text := labels.foldl (fun acc kv => acc ++ kv.1 ++ ": " ++ kv.2 ++ "<br>") ""
  String.mk (((text.data.dropWhile brChar).reverse.dropWhile brChar).reverse)

/-- `point[key]` on a tSNE CSV row: the named columns, then any extra CSV
column, `none` = `KeyError`. -/
def lookupField (p : ClusterPoint) (k : String) : Option String :=
  if k = "samp" then some p.samp
  else if k = "tsne_x" then some p.tsne_x
  else if k = "tsne_y" then some p.tsne_y
  else if k = "cluster_label" then some p.cluster_label
  else if k = "cluster_name" then some p.cluster_name
  else if k = "cluster_ordered" then some p.cluster_ordered
  else if k = "cluster_ortholog" then some p.cluster_ortholog
  else if k = "biosample" then some p.biosample
  else if k = "layer" then some p.layer
  else List.lookup k p.extras

/-- The fixed 8-symbol marker palette of `get_cluster_plot`. -/
def symbolsList : List String :=
  ["circle-open", "square-open", "cross", "triangle-up", "triangle-down",
   "octagon", "star", "diamond"]

/-- The data content of one `Scattergl` trace of the cluster plot (static
layout/styling attributes that no claim mentions are not modelled). -/
structure ScatterTrace where
  xs : List String
  ys : List String
  texts : List String
  name : String
  legendgroup : String
  markerColor : String
  markerSize : ℤ
  markerSymbol : String
  markerLineColor : String
  visible : Vis
deriving DecidableEq, Repr

/-- `traces` is the `OrderedDict` keyed by `cluster_sample_num`, modelled as
an association list in insertion order. -/
def lookupKey {α : Type} (l : List (ℤ × α)) (k : ℤ) : Option α :=
  match l.find? (fun kv => kv.1 = k) with
  | some kv => some kv.2
  | none => none

/-- Whether the ordered dictionary already has key `k`. -/
def hasKey {α : Type} (l : List (ℤ × α)) (k : ℤ) : Bool :=
  (l.find? (fun kv => kv.1 = k)).isSome

/-- In-place mutation of the entry at key `k` (Python mutates the stored
trace object). -/
def updateVal {α : Type} (l : List (ℤ × α)) (k : ℤ) (f : α → α) : List (ℤ × α) :=
  l.map (fun kv => if kv.1 = k then (kv.1, f kv.2) else kv)

/-- Lift an optional value into the error monad (`none` = the given Python
exception). -/
def toExcept {α : Type} (e : PyErr) (o : Option α) : Except PyErr α :=
  match o with
  | none => Except.error e
  | some a => Except.ok a

/-- Lines 353–356: `max_cluster = int(max(points, key=...)['cluster_ordered'])
+ 1`, overridden to `16` for species `'mmu'`.  `int()` parses every point's
`cluster_ordered` (a ValueError anywhere aborts the builder). -/
def maxClusterScatter (species : String) (points : List ClusterPoint) :
    Except PyErr ℤ :=
  (toExcept PyErr.valueErr
      (points.mapM (fun p => pyIntOfString p.cluster_ordered))).bind (fun vals =>
    if species = "mmu" then Except.ok 16
    else Except.ok (vals.foldl max (vals.headD 0) + 1))

/-- Hover text of one cluster-plot point (lines 383–389). -/
def hoverOf (p : ClusterPoint) (cn : ℤ) : String :=
  buildHoverText
    [("Cell", p.samp), ("Layer", p.layer), ("Biosample", p.biosample),
     ("Cluster", toString cn)]

/-- Appending the point's coordinates and hover text to its trace
(`trace['x'].append(...)` etc.). -/
def appendPoint (p : ClusterPoint) (cn : ℤ) (tr : ScatterTrace) : ScatterTrace :=
  { tr with xs := tr.xs ++ [p.tsne_x], ys := tr.ys ++ [p.tsne_y],
            texts := tr.texts ++ [hoverOf p cn] }

/-- The freshly built `Scattergl` trace of one group (lines 363–380): empty
data lists, size-7 marker colored by cluster, symbol by biosample,
visible. -/
def mkScatterTrace (p : ClusterPoint) (col sym lg : String) : ScatterTrace :=
  { xs := [], ys := [], texts := [],
    name := p.cluster_name ++ " Sample" ++ p.biosample,
    legendgroup := lg, markerColor := col, markerSize := 7,
    markerSymbol := sym, markerLineColor := col, visible := Vis.shown }

/-- `traces.setdefault(key, tr0)`: keep the existing entry or append a new
one at the end (insertion order). -/
def insertOrKeep {α : Type} (traces : List (ℤ × α)) (key : ℤ) (tr0 : α) :
    List (ℤ × α) :=
  if hasKey traces key then traces else traces ++ [(key, tr0)]

/-- One iteration of the point loop of `get_cluster_plot` (lines 359–389).
The `Scattergl(...)` default of `setdefault` is evaluated eagerly for every
point, so the color/symbol indexing and `point[grouping]` lookup can raise
even when the key already exists. -/
def addClusterPoint (grouping : String) (mc : ℤ) (colors : List String)
    (traces : List (ℤ × ScatterTrace)) (p : ClusterPoint) :
    Except PyErr (List (ℤ × ScatterTrace)) :=
  (toExcept PyErr.valueErr (pyIntOfString p.cluster_ordered)).bind (fun cn =>
  (toExcept PyErr.valueErr (pyIntOfString p.biosample)).bind (fun bs =>
  (pyIndex colors (cn - 1)).bind (fun col =>
  (pyIndex symbolsList (bs - 1)).bind (fun sym =>
  (toExcept PyErr.keyErr (lookupField p grouping)).bind (fun lg =>
  Except.ok (updateVal
    (insertOrKeep traces (cn + mc * (bs - 1)) (mkScatterTrace p col sym lg))
    (cn + mc * (bs - 1)) (appendPoint p cn)))))))

/-- The mmu secondary treatment of one group (lines 392–396): enlarge the
marker, recolor it black, cycle the symbol and hide the trace behind the
legend; `traces[i]` raises KeyError when group `i` is absent. -/
def treatScatterKey (traces : List (ℤ × ScatterTrace)) (i : ℤ) :
    Except PyErr (List (ℤ × ScatterTrace)) :=
  if hasKey traces i then
    match pyIndex symbolsList (i % 8) with
    | Except.error e => Except.error e
    | Except.ok sym =>
      Except.ok (updateVal traces i (fun tr =>
        { tr with markerSize := 15, markerSymbol := sym,
                  markerColor := "black", visible := Vis.legendOnly }))
  else Except.error PyErr.keyErr

/-- `for i in range(17, 23, 1)` of the mmu override. -/
def mmuOverrideScatter (traces : List (ℤ × ScatterTrace)) :
    Except PyErr (List (ℤ × ScatterTrace)) :=
  List.foldlM treatScatterKey traces [17, 18, 19, 20, 21, 22]

/-- `get_cluster_plot(species, grouping)` down to its trace dictionary
(the static `Layout` is pure styling).  `points` is the
`get_cluster_points` result (`if not points: raise FailToGraphException`
covers both `None` and the empty list). -/
def getClusterPlot (species grouping : String) (points : List ClusterPoint) :
    Except PyErr (List (ℤ × ScatterTrace)) :=
  if points = [] then Except.error PyErr.failToGraph
  else
    (maxClusterScatter species points).bind (fun mc =>
    if mc < 0 then Except.error PyErr.valueErr
    else
      (points.foldlM (addClusterPoint grouping mc (generateClusterColors mc.toNat)) []).bind
        (fun traces =>
          if species = "mmu" then mmuOverrideScatter traces
          else Except.ok traces))

/-- The data content of one `Box` trace of the single-species box plot. -/
structure BoxTrace where
  ys : List (Option ℚ)
  name : String
  markerColor : String
  outlierColor : String
  markerSize : ℤ
  visible : Vis
deriving DecidableEq, Repr

/-- The assembled single-species box plot: the trace dictionary (insertion
order) and the resolved gene display name. -/
structure BoxPlotOut where
  traces : List (ℤ × BoxTrace)
  geneName : String
deriving DecidableEq, Repr

/-- Lines 639–642: `max_cluster` of `get_mch_box`; the points here are
joined records whose `cluster_ordered` is a float (NaN raises ValueError
under `int()`). -/
def maxClusterBox (species : String) (points : List MRow) : Except PyErr ℤ :=
  (toExcept PyErr.valueErr
      (points.mapM (fun r => r.cluster_ordered.map truncInt))).bind (fun vals =>
    if species = "mmu" then Except.ok 16
    else Except.ok (vals.foldl max (vals.headD 0) + 1))

/-- `colors[(cn - 1) % len(colors)]`: Python `%` with a positive modulus is
nonnegative; an empty color list is a ZeroDivisionError. -/
def colorMod (colors : List String) (i : ℤ) : Except PyErr String :=
  if colors.length = 0 then Except.error PyErr.zeroDivErr
  else Except.ok (colors.getD (i % colors.length).toNat "")

/-- The freshly built `Box` trace of one cluster (lines 645–655). -/
def mkBoxTrace (p : MRow) (col : String) : BoxTrace :=
  { ys := [], name := p.cluster_name, markerColor := col,
    outlierColor := col, markerSize := 6, visible := Vis.shown }

/-- `trace['y'].append(...)` with the caller-selected value column. -/
def appendBoxY (level : String) (p : MRow) (tr : BoxTrace) : BoxTrace :=
  { tr with ys := tr.ys ++ [if level = "normalized" then p.normalized else p.original] }

/-- One iteration of the point loop of `get_mch_box` (lines 644–659); the
`Box(...)` default is evaluated eagerly for every point. -/
def addBoxPoint (level : String) (colors : List String)
    (traces : List (ℤ × BoxTrace)) (p : MRow) :
    Except PyErr (List (ℤ × BoxTrace)) :=
  (toExcept PyErr.valueErr (p.cluster_ordered.map truncInt)).bind (fun cn =>
  (colorMod colors (cn - 1)).bind (fun col =>
  Except.ok (updateVal
    (insertOrKeep traces cn (mkBoxTrace p col))
    cn (appendBoxY level p))))

/-- The mmu secondary treatment of one box group (lines 662–665). -/
def treatBoxKey (traces : List (ℤ × BoxTrace)) (i : ℤ) :
    Except PyErr (List (ℤ × BoxTrace)) :=
  if hasKey traces i then
    Except.ok (updateVal traces i (fun tr =>
      { tr with markerColor := "black", outlierColor := "black",
                visible := Vis.legendOnly }))
  else Except.error PyErr.keyErr

/-- `for i in range(17, 23, 1)` of the mmu box override. -/
def mmuOverrideBox (traces : List (ℤ × BoxTrace)) :
    Except PyErr (List (ℤ × BoxTrace)) :=
  List.foldlM treatBoxKey traces [17, 18, 19, 20, 21, 22]

/-- `get_mch_box(species, gene, level, outliers)` down to its trace
dictionary and gene name.  `points` is the `get_gene_mch` result; `gdb` and
`speciesOk` model the `gene_names` store read by `gene_id_to_name`. -/
def getMchBox (species gene level : String) (speciesOk : Bool)
    (gdb : List GeneRec) (points : List MRow) : Except PyErr BoxPlotOut :=
  if points = [] then Except.error PyErr.failToGraph
  else
    (maxClusterBox species points).bind (fun mc =>
    if mc < 0 then Except.error PyErr.valueErr
    else
      (points.foldlM (addBoxPoint level (generateClusterColors mc.toNat)) []).bind
        (fun traces =>
        (if species = "mmu" then mmuOverrideBox traces else Except.ok traces).bind
          (fun traces2 =>
          (geneNameOf speciesOk gdb gene).bind (fun gname =>
          Except.ok { traces := traces2, geneName := gname }))))

/-- Structured hover entry of the gene scatter (`'mCH'`, `'Sample'`,
`'Cluster'`; the numeric value is shown rounded to 6 places). -/
structure ScatterHover where
  mch : Option ℚ
  samp : String
  cluster : String
deriving DecidableEq, Repr

/-- The assembled gene-body mCH scatter (`get_mch_scatter`): point data,
percentile-clipped colors and the colorbar tick data.  The `'<'`/`'>'`
prefixes of the extreme tick labels are string dressing and are not
modelled; tick label numbers are kept as the `round(x, 3)` values. -/
structure GeneScatterOut where
  xs : List String
  ys : List String
  hovers : List ScatterHover
  colors : List MchColor
  tickvals : List ℚ
  ticktexts : List ℚ
  geneName : String
deriving DecidableEq, Repr

/-- `numpy.arange(s, e, st)` for floats: `ceil((e - s) / st)` points starting
at `s` with step `st`; a non-positive computed length gives the empty array.
A zero step makes the length computation `0/0 = nan`, which the (2017-era)
float path turns into an empty array. -/
def arangeQ (s e st : ℚ) : List ℚ :=
  if st = 0 then []
  else (List.range ((e - s) / st).ceil.toNat).map (fun k => s + (k : ℚ) * st)

/-- Lines 522–526 of `get_mch_scatter` (the spec's `clipToPercentile`):
drop NaN, take the `pStart`/`pEnd` empirical quantiles, and clamp every
value through `set_color_by_percentile`. -/
def clipToPercentile (mch : List (Option ℚ)) (ps pe : ℚ) :
    Option ℚ × Option ℚ × List MchColor :=
  let nn := mch.filterMap id
  let s := quantileQ nn ps
  let e := quantileQ nn pe
  (s, e, mch.map (fun x => setColorByPercentile x s e))

/-- `get_mch_scatter(species, gene, level, ptile_start, ptile_end)` down to
its trace/colorbar data.  `points` is the `get_gene_mch(species, gene, True)`
result.  Lines 528–535 build the colorbar ticks: `arange(start, end,
(end - start) / 4)`, then `colorbar_tickval[0] = start` — an IndexError when
the arange result is empty (as happens when `start == end` makes the step
zero) — then `append(end)`; the tick texts repeat the computation with
`round(x, 3)`. -/
def getMchScatter (species gene level : String) (ps pe : ℚ) (speciesOk : Bool)
    (gdb : List GeneRec) (points : List MRow) : Except PyErr GeneScatterOut :=
  if points = [] then Except.error PyErr.failToGraph
  else
    let mch := points.map (fun p => if level = "normalized" then p.normalized else p.original)
    let xs := points.map MRow.tsne_x
    let ys := points.map MRow.tsne_y
    let hovers := points.map (fun p =>
      { mch := (if level = "normalized" then p.normalized else p.original).map
          (fun v => roundScaled v 6),
        samp := p.samp, cluster := p.cluster_name : ScatterHover })
    let clipped := clipToPercentile mch ps pe
    let s := clipped.1
    let e := clipped.2.1
    let colors := clipped.2.2
    let ticks : List ℚ := match s, e with
      | some a, some b => arangeQ a b ((b - a) / 4)
      | _, _ => []
    match ticks with
    | [] => Except.error PyErr.indexErr
    | _ :: ts =>
      let tickvals := s.getD 0 :: ts ++ [e.getD 0]
      let ticktexts := roundScaled (s.getD 0) 3 ::
        (ts.map (fun x => roundScaled x 3)) ++ [roundScaled (e.getD 0) 3]
      match geneNameOf speciesOk gdb gene with
      | Except.error err => Except.error err
      | Except.ok gname =>
        Except.ok { xs := xs, ys := ys, hovers := hovers, colors := colors,
                    tickvals := tickvals, ticktexts := ticktexts, geneName := gname }

/-- The assembled dual-species box plot (`get_mch_box_two_species`): the two
grouped box traces (mouse red, human black) and the gene display name. -/
structure TwoBoxOut where
  yMmu : List (Option ℚ)
  xMmu : List String
  colorMmu : String
  yHsa : List (Option ℚ)
  xHsa : List String
  colorHsa : String
  geneName : String
deriving DecidableEq, Repr

/-- `i.get(level)` on a joined record (`None` for a level other than the two
value columns, collapsed with NaN into `none`). -/
def levelGet (r : MRow) (level : String) : Option ℚ :=
  if level = "normalized" then r.normalized
  else if level = "original" then r.original
  else none

/-- `get_mch_box_two_species(gene_mmu, gene_hsa, level, outliers)` down to
its two traces.  `pm`/`ph` are the two `get_gene_mch` results and `co` the
`get_ortholog_cluster_order` result (only its non-emptiness is used by the
source).  Records whose `cluster_ortholog` is falsy (the empty string) are
excluded from both traces. -/
def getMchBoxTwoSpecies (level : String) (mmuOk : Bool) (gdbMmu : List GeneRec)
    (gene_mmu : String) (pm ph : List MRow) (co : List (String × ℤ)) :
    Except PyErr TwoBoxOut :=
  if pm = [] ∨ ph = [] ∨ co = [] then Except.error PyErr.failToGraph
  else
    match geneNameOf mmuOk gdbMmu gene_mmu with
    | Except.error e => Except.error e
    | Except.ok gname =>
      let keepM := pm.filter (fun i => i.cluster_ortholog ≠ "")
      let keepH := ph.filter (fun i => i.cluster_ortholog ≠ "")
      Except.ok
        { yMmu := keepM.map (fun i => levelGet i level),
          xMmu := keepM.map MRow.cluster_ortholog,
          colorMmu := "red",
          yHsa := keepH.map (fun i => levelGet i level),
          xHsa := keepH.map MRow.cluster_ortholog,
          colorHsa := "black",
          geneName := gname }

/-- A simple embedding CSV row used for concrete test inputs. -/
def mkPt (samp co name bios : String) : ClusterPoint :=
  { samp := samp, tsne_x := "0.1", tsne_y := "0.2", cluster_label := name,
    cluster_name := name, cluster_ordered := co, cluster_ortholog := "",
    biosample := bios, layer := "L1", extras := [] }

/-- A simple joined record used for concrete test inputs. -/
def mkMR (samp : String) (co : Option ℚ) (o n : Option ℚ) : MRow :=
  { samp := samp, tsne_x := "0.1", tsne_y := "0.2", cluster_label := "C",
    cluster_name := "C", cluster_ordered := co, cluster_ortholog := "",
    original := o, normalized := n }

/-- A simple pre-coercion merged row used for concrete test inputs. -/
def mkMGR (samp : String) (co : String) (n : Option ℚ) : MergedRow :=
  { samp := samp, tsne_x := "0", tsne_y := "0", cluster_label := "C",
    cluster_name := "C", cluster_ordered := co, cluster_ortholog := "",
    original := n, normalized := n }

/-- Joined set with normalized values 1, 2, 3: its 99th percentile is 2.98,
one filter pass keeps the rows 1 and 2, and a second pass (percentile now
1.99) keeps only the row 1. -/
def rs3 : List MergedRow :=
  [mkMGR "a" "1" (some 1), mkMGR "b" "2" (some 2), mkMGR "c" "3" (some 3)]

/-- A one-gene `gene_names` table used in concrete runs. -/
def gdb1 : List GeneRec := [{ geneID := "ENSMUSG0001", geneName := "Foo" }]

/-- Joined records whose normalized values are all equal (1/2): any pair of
percentiles collapses to the same bound. -/
def c6pts : List MRow :=
  [mkMR "s1" (some 1) (some (1/2)) (some (1/2)),
   mkMR "s2" (some 2) (some (1/2)) (some (1/2)),
   mkMR "s3" (some 3) (some (1/2)) (some (1/2))]

/-- Joined records with distinct values 1, 2, 3 (used with
`ptile_start = ptile_end`). -/
def c6pts2 : List MRow :=
  [mkMR "s1" (some 1) (some 1) (some 1), mkMR "s2" (some 2) (some 2) (some 2),
   mkMR "s3" (some 3) (some 3) (some 3)]

/-- Two embedding rows, only the first of which has a measurement. -/
def c1cluster : List ClusterPoint := [mkPt "s1" "1" "C1" "1", mkPt "s2" "2" "C2" "1"]

/-- The single measurement row matching sample `s1`. -/
def c1mch : List MchRow :=
  [{ gene := "g", samp := "s1", original := some 1, normalized := some 1 }]

/-- Three embedding rows, all with measurements (values 1, 2, 3). -/
def c9cluster : List ClusterPoint :=
  [mkPt "s1" "1" "C1" "1", mkPt "s2" "2" "C2" "1", mkPt "s3" "3" "C3" "1"]

/-- Measurements 1, 2, 3 for the three samples. -/
def c9mch : List MchRow :=
  [{ gene := "g", samp := "s1", original := some 1, normalized := some 1 },
   { gene := "g", samp := "s2", original := some 2, normalized := some 2 },
   { gene := "g", samp := "s3", original := some 3, normalized := some 3 }]

/-- The joined record with value 1 that survives the outlier filter on
`c9cluster`/`c9mch`. -/
def c9row : MRow :=
  { samp := "s1", tsne_x := "0.1", tsne_y := "0.2", cluster_label := "C1",
    cluster_name := "C1", cluster_ordered := some 1, cluster_ortholog := "",
    original := some 1, normalized := some 1 }

/-- Six mmu embedding rows with clusters 1–6 in biosample 2, so their derived
group indices `cluster + 16 * (biosample - 1)` are exactly 17–22. -/
def c8pts : List ClusterPoint :=
  [mkPt "s1" "1" "C1" "2", mkPt "s2" "2" "C2" "2", mkPt "s3" "3" "C3" "2",
   mkPt "s4" "4" "C4" "2", mkPt "s5" "5" "C5" "2", mkPt "s6" "6" "C6" "2"]

/-- Six mmu joined records with cluster numbers 17–22. -/
def c8bpts : List MRow :=
  [mkMR "s1" (some 17) (some 1) (some 1), mkMR "s2" (some 18) (some 2) (some 2),
   mkMR "s3" (some 19) (some 3) (some 3), mkMR "s4" (some 20) (some 4) (some 4),
   mkMR "s5" (some 21) (some 5) (some 5), mkMR "s6" (some 22) (some 6) (some 6)]

/-- The successful mmu cluster-plot run on `c8pts`. -/
def c8scatterOut : List (ℤ × ScatterTrace) :=
  match getClusterPlot "mmu" "cluster_name" c8pts with
  | Except.ok t => t
  | Except.error _ => []

/-- The successful mmu box-plot run on `c8bpts`. -/
def c8boxOut : BoxPlotOut :=
  match getMchBox "mmu" "ENSMUSG0001" "normalized" true gdb1 c8bpts with
  | Except.ok t => t
  | Except.error _ => { traces := [], geneName := "" }

/-- A one-row ortholog table used in concrete runs. -/
def odb1 : List OrthologRow := [{ mmu_gID := "ENSMUSG0001", hsa_gID := "ENSG0001" }]

/-- A cluster-plot trace as created by the point loop, before any mmu
override: size-7 marker, visible. -/
def scatterBase (tr : ScatterTrace) : Prop :=
  tr.markerSize = 7 ∧ tr.visible = Vis.shown

/-- The mmu secondary visual treatment of a cluster-plot trace: enlarged,
black, legend-only. -/
def scatterTreated (tr : ScatterTrace) : Prop :=
  tr.markerSize = 15 ∧ tr.markerColor = "black" ∧ tr.visible = Vis.legendOnly

/-- A box trace as created by the point loop, before any mmu override:
visible. -/
def boxBase (tr : BoxTrace) : Prop := tr.visible = Vis.shown

/-- The mmu secondary visual treatment of a box trace: black, legend-only. -/
def boxTreated (tr : BoxTrace) : Prop :=
  tr.markerColor = "black" ∧ tr.outlierColor = "black" ∧ tr.visible = Vis.legendOnly

/-- Unfolding rule: lifting a present optional value. -/
theorem toExcept_some {α : Type} (e : PyErr) (a : α) :
    toExcept e (some a) = Except.ok a := rfl

/-- Unfolding rule: lifting an absent optional value. -/
theorem toExcept_none {α : Type} (e : PyErr) :
    toExcept e (none : Option α) = Except.error e := rfl

/-- Unfolding rule: binding a successful result. -/
theorem exceptOkBind {α β : Type} (a : α) (f : α → Except PyErr β) :
    (Except.ok a : Except PyErr α).bind f = f a := rfl

/-- Unfolding rule: binding an error result. -/
theorem exceptErrorBind {α β : Type} (e : PyErr) (f : α → Except PyErr β) :
    (Except.error e : Except PyErr α).bind f = Except.error e := rfl

/-- Helper: one application of the outlier-removal step yields a sublist of
its input (it either filters or empties the list). -/
theorem outlierFilterStep_sublist (l : List MergedRow) :
    (outlierFilterStep l).Sublist l := by
  unfold outlierFilterStep
  cases h : quantileQ (l.filterMap MergedRow.normalized) (99/100) with
  | none => exact List.nil_sublist l
  | some q => exact List.filter_sublist l

/-- C2: each plot builder — cluster scatter, gene scatter, and the single-
and dual-species gene box plots — signals the dedicated graphing-failure
error (`FailToGraphException`), not a generic exception, whenever the
record set it consumes is empty; for the dual-species builder this holds
when either species' joined set is empty (and also when the ortholog
cluster order is empty). -/
theorem c2_empty_input_raises_failToGraph :
    (∀ species grouping, getClusterPlot species grouping [] =
        Except.error PyErr.failToGraph) ∧
    (∀ species gene level ps pe sOk gdb,
        getMchScatter species gene level ps pe sOk gdb [] =
        Except.error PyErr.failToGraph) ∧
    (∀ species gene level sOk gdb,
        getMchBox species gene level sOk gdb [] =
        Except.error PyErr.failToGraph) ∧
    (∀ level mmuOk gdb g ph co,
        getMchBoxTwoSpecies level mmuOk gdb g [] ph co =
        Except.error PyErr.failToGraph) ∧
    (∀ level mmuOk gdb g pm co,
        getMchBoxTwoSpecies level mmuOk gdb g pm [] co =
        Except.error PyErr.failToGraph) ∧
    (∀ level mmuOk gdb g pm ph,
        getMchBoxTwoSpecies level mmuOk gdb g pm ph [] =
        Except.error PyErr.failToGraph) := by
  refine ⟨?_, ?_, ?_, ?_, ?_, ?_⟩
  · intro species grouping; rfl
  · intro species gene level ps pe sOk gdb; rfl
  · intro species gene level sOk gdb; rfl
  · intro level mmuOk gdb g ph co; rfl
  · intro level mmuOk gdb g pm co; simp [getMchBoxTwoSpecies]
  · intro level mmuOk gdb g pm ph; simp [getMchBoxTwoSpecies]

/-- C3 counterexample: the outlier-removal step of `get_gene_mch` is not
idempotent — on the joined set with normalized values 1, 2, 3 one pass
keeps {1, 2} (99th percentile 2.98) but a second pass keeps only {1}
(recomputed percentile 1.99, strict comparison). -/
theorem c3_counterexample :
    outlierFilterStep (outlierFilterStep rs3) ≠ outlierFilterStep rs3 := by decide

/-- C3 amended: re-applying the outlier-removal step to already-filtered
data does not in general reproduce it; it always yields a (possibly strict)
sublist, because the 99th percentile is recomputed over the filtered set and
rows at or above it are dropped again. -/
theorem c3_amended_refilter_sublist (rows : List MergedRow) :
    (outlierFilterStep (outlierFilterStep rows)).Sublist (outlierFilterStep rows) :=
  outlierFilterStep_sublist _

/-- C4 counterexample: on `[1,2,3,4,100]` with `pStart = 0`, `pEnd = 0.8`,
the percentile clipping of `get_mch_scatter` yields `high = 23.2` — the
0.8 empirical quantile with linear interpolation is `4 + 0.2·(100−4)` —
and maps 100 to 23.2, not to 3.2 (23.2 is not within any reasonable
tolerance of 3.2: it exceeds every input value below the maximum). -/
theorem c4_counterexample :
    (clipToPercentile [some 1, some 2, some 3, some 4, some 100] 0 (4/5)).2.1 =
      some (116/5) ∧
    (clipToPercentile [some 1, some 2, some 3, some 4, some 100] 0 (4/5)).2.2 =
      [MchColor.num 1, MchColor.num 2, MchColor.num 3, MchColor.num 4,
       MchColor.num (116/5)] ∧
    ((116 : ℚ)/5 ≠ 16/5 ∧ ¬((116 : ℚ)/5 < 4)) := by decide

/-- C4 amended: `clipToPercentile([1,2,3,4,100], 0.0, 0.8)` yields `low = 1`,
`high = 23.2`, and clips the input value 100 to 23.2. -/
theorem c4_amended_clip :
    clipToPercentile [some 1, some 2, some 3, some 4, some 100] 0 (4/5) =
      (some 1, some (116/5),
       [MchColor.num 1, MchColor.num 2, MchColor.num 3, MchColor.num 4,
        MchColor.num (116/5)]) := by decide

/-- C6: when the two percentile bounds collapse to the same value — all
values equal, or `ptile_start = ptile_end` — the gene-scatter colorbar
computation fails with an IndexError (`arange` with the zero step
`(end-start)/4` is empty and `colorbar_tickval[0] = start` then fails)
instead of degenerating to a single-color scale. -/
theorem c6_collapsed_bounds_fail :
    getMchScatter "mmu" "ENSMUSG0001" "normalized" 0 1 true gdb1 c6pts =
      Except.error PyErr.indexErr ∧
    getMchScatter "mmu" "ENSMUSG0001" "normalized" (1/2) (1/2) true gdb1 c6pts2 =
      Except.error PyErr.indexErr := by
  exact ⟨rfl, rfl⟩

/-- C7: `gene_id_to_name` returns the `[]` sentinel for an absent species,
but for a present species whose table has no row matching the query it
evaluates `dict(None)` and raises `TypeError` — a thrown fault, not a
sentinel. -/
theorem c7_no_match_raises :
    geneIdToName false gdb1 "ENSNOPE" = Except.ok GeneNameResult.emptySentinel ∧
    geneIdToName true gdb1 "ENSNOPE" = Except.error PyErr.typeErr ∧
    geneIdToName true gdb1 "ENSMUSG0001" =
      Except.ok (GeneNameResult.record { geneID := "ENSMUSG0001", geneName := "Foo" }) := by
  exact ⟨rfl, by decide, by decide⟩

/-- C10: when both gene IDs are supplied, `find_orthologs` queries by
`mmu_gID` with the mouse value and ignores the human argument: the result
equals the call with only the mouse ID. -/
theorem c10_mouse_precedence (db : List OrthologRow) (mmu_gid hsa_gid : String)
    (hm : mmu_gid ≠ "") :
    findOrthologs db mmu_gid hsa_gid = findOrthologs db mmu_gid "" := by
  simp [findOrthologs, hm]

/-- Witness for C10 at a concrete table and ID pair. -/
theorem c10_mouse_precedence_witness :
    ("ENSMUSG0001" ≠ "") ∧
    findOrthologs odb1 "ENSMUSG0001" "ENSG9999" = findOrthologs odb1 "ENSMUSG0001" "" :=
  ⟨by decide, c10_mouse_precedence odb1 "ENSMUSG0001" "ENSG9999" (by decide)⟩

set_option maxRecDepth 10000 in
/-- Helper: for every count in 1..35, the generated color list has exactly
that many pairwise-distinct entries. -/
theorem generateClusterColors_sound : ∀ n ∈ Finset.Icc 1 35,
    ((generateClusterColors n).length = n ∧ (generateClusterColors n).Nodup) := by
  decide

/-- C5: for every `n` in [1, 35], `generate_cluster_colors(n)` produces
exactly `n` distinct-by-construction colors — hues evenly spaced over
0–360° at 50% saturation and 50% lightness — and the per-call
`random.sample` shuffle only permutes them, so every permutation of the
base list has length `n` and no duplicates. -/
theorem c5_cluster_colors (n : ℕ) (h1 : 1 ≤ n) (h35 : n ≤ 35)
    (l : List String) (hp : l.Perm (generateClusterColors n)) :
    l.length = n ∧ l.Nodup := by
  have hb := generateClusterColors_sound n (Finset.mem_Icc.mpr ⟨h1, h35⟩)
  exact ⟨hp.length_eq.trans hb.1, hp.nodup_iff.mpr hb.2⟩

/-- Witness for C5 at `n = 3` and the identity permutation. -/
theorem c5_cluster_colors_witness :
    (1 ≤ 3 ∧ 3 ≤ 35) ∧
    ((generateClusterColors 3).length = 3 ∧ (generateClusterColors 3).Nodup) :=
  ⟨by decide, c5_cluster_colors 3 (by decide) (by decide)
    (generateClusterColors 3) (List.Perm.refl _)⟩

/-- Helper: with pairwise-distinct measurement sample IDs, at most one
measurement row matches any sample. -/
theorem filter_samp_len_le (mch : List MchRow) (s : String)
    (h : (mch.map MchRow.samp).Nodup) :
    (mch.filter (fun m => m.samp = s)).length ≤ 1 := by
  induction mch with
  | nil => simp
  | cons m rest ih =>
    rw [List.map_cons, List.nodup_cons] at h
    rw [List.filter_cons]
    by_cases hs : m.samp = s
    · have hrest : rest.filter (fun m => decide (m.samp = s)) = [] := by
        rw [List.filter_eq_nil_iff]
        intro a ha
        simp only [decide_eq_true_eq]
        intro hc
        apply h.1
        rw [hs, ← hc]
        exact List.mem_map_of_mem MchRow.samp ha
      simp [hs, hrest]
    · simpa [hs] using ih h.2

/-- Helper: each embedding row contributes exactly one joined row when the
measurement sample IDs are distinct. -/
theorem mergeOne_length (mch : List MchRow) (c : ClusterPoint)
    (h : (mch.map MchRow.samp).Nodup) :
    (mergeOne mch c).length = 1 := by
  unfold mergeOne
  by_cases he : (mch.filter (fun m => m.samp = c.samp)).isEmpty
  · simp [he]
  · have hle := filter_samp_len_le mch c.samp h
    have hne : (mch.filter (fun m => m.samp = c.samp)).length ≠ 0 := by
      intro h0
      exact he (List.isEmpty_iff.mpr (List.length_eq_zero.mp h0))
    simp only [he, if_false, Bool.false_eq_true, List.length_map]
    omega

/-- Helper: the left join has exactly one row per embedding row when the
measurement sample IDs are distinct. -/
theorem mergeLeft_length (cluster : List ClusterPoint) (mch : List MchRow)
    (h : (mch.map MchRow.samp).Nodup) :
    (mergeLeft cluster mch).length = cluster.length := by
  induction cluster with
  | nil => rfl
  | cons c cs ih =>
    unfold mergeLeft at ih ⊢
    rw [List.flatMap_cons, List.length_append, ih, mergeOne_length mch c h,
      List.length_cons, Nat.add_comm]

/-- C1: with outliers included, `get_gene_mch` returns exactly one record
per embedding row of the species — the left join never drops rows — and an
embedding row with no matching measurement yields a record with null
original/normalized values.  (The measurement file has one row per sample,
per the data model.) -/
theorem c1_left_join (cluster : List ClusterPoint) (mch : List MchRow)
    (hnd : (mch.map MchRow.samp).Nodup) :
    (getGeneMch true true cluster mch true).length = cluster.length ∧
    ∀ c ∈ cluster, (∀ m ∈ mch, m.samp ≠ c.samp) →
      coerceRow (mkMergedRow c none none) ∈ getGeneMch true true cluster mch true := by
  have hperm : (getGeneMch true true cluster mch true).Perm
      ((mergeLeft cluster mch).map coerceRow) :=
    List.perm_insertionSort rowLeP ((mergeLeft cluster mch).map coerceRow)
  constructor
  · rw [hperm.length_eq, List.length_map, mergeLeft_length cluster mch hnd]
  · intro c hc hnom
    have hfil : mch.filter (fun m => m.samp = c.samp) = [] := by
      rw [List.filter_eq_nil_iff]
      intro m hm
      simp only [decide_eq_true_eq]
      exact hnom m hm
    have h1 : mkMergedRow c none none ∈ mergeLeft cluster mch := by
      unfold mergeLeft
      rw [List.mem_flatMap]
      exact ⟨c, hc, by simp [mergeOne, hfil]⟩
    exact hperm.mem_iff.mpr (List.mem_map_of_mem coerceRow h1)

/-- Witness for C1: two embedding rows, one matching measurement; the join
keeps both rows and the unmatched one carries nulls. -/
theorem c1_left_join_witness :
    (getGeneMch true true c1cluster c1mch true).length = c1cluster.length ∧
    ∀ c ∈ c1cluster, (∀ m ∈ c1mch, m.samp ≠ c.samp) →
      coerceRow (mkMergedRow c none none) ∈ getGeneMch true true c1cluster c1mch true :=
  c1_left_join c1cluster c1mch (by decide)

/-- C9: with outliers excluded, every record returned by `get_gene_mch`
carries a non-null normalized value strictly below the 99th percentile of
the joined set — null rows and rows exactly equal to the percentile are
dropped by the strict comparison — and on a concrete input with an
unmatched sample the output is shorter than the embedding table, so the
one-record-per-embedding-row invariant holds only with outliers included. -/
theorem c9_strict_filter :
    (∀ (cluster : List ClusterPoint) (mch : List MchRow) (r : MRow),
      r ∈ getGeneMch true true cluster mch false →
      ∃ v, r.normalized = some v ∧
        ∃ q, quantileQ ((mergeLeft cluster mch).filterMap MergedRow.normalized)
              (99/100) = some q ∧ v < q) ∧
    (getGeneMch true true c1cluster c1mch false).length < c1cluster.length := by
  constructor
  · intro cluster mch r hr
    have hperm : (getGeneMch true true cluster mch false).Perm
        ((outlierFilterStep (mergeLeft cluster mch)).map coerceRow) :=
      List.perm_insertionSort rowLeP _
    have hr' : r ∈ (outlierFilterStep (mergeLeft cluster mch)).map coerceRow :=
      hperm.subset hr
    obtain ⟨r0, hr0, rfl⟩ := List.mem_map.mp hr'
    unfold outlierFilterStep at hr0
    cases hq : quantileQ ((mergeLeft cluster mch).filterMap MergedRow.normalized)
        (99/100) with
    | none => rw [hq] at hr0; cases hr0
    | some q =>
      rw [hq] at hr0
      have hp := (List.mem_filter.mp hr0).2
      cases hn : r0.normalized with
      | none => rw [hn] at hp; cases hp
      | some v =>
        rw [hn] at hp
        simp only [decide_eq_true_eq] at hp
        exact ⟨v, by simp [coerceRow, hn], q, rfl, hp⟩
  · decide

/-- Witness for C9 at a concrete joined set: the surviving record has value
1, strictly below the percentile 2.98. -/
theorem c9_strict_filter_witness :
    ∃ v, c9row.normalized = some v ∧
      ∃ q, quantileQ ((mergeLeft c9cluster c9mch).filterMap MergedRow.normalized)
            (99/100) = some q ∧ v < q :=
  c9_strict_filter.1 c9cluster c9mch c9row (by decide)

/-- Helper: membership in an updated trace dictionary comes from membership
in the original, with the update function applied exactly at the updated
key. -/
theorem updateVal_mem {α : Type} (l : List (ℤ × α)) (k : ℤ) (f : α → α)
    (k' : ℤ) (tr : α) (h : (k', tr) ∈ updateVal l k f) :
    ∃ tr0, (k', tr0) ∈ l ∧ ((k' = k ∧ tr = f tr0) ∨ (k' ≠ k ∧ tr = tr0)) := by
  unfold updateVal at h
  obtain ⟨kv, hkv, heq⟩ := List.mem_map.mp h
  by_cases hk : kv.1 = k
  · rw [if_pos hk] at heq
    rw [Prod.mk.injEq] at heq
    refine ⟨kv.2, ?_, Or.inl ⟨heq.1 ▸ hk, heq.2.symm⟩⟩
    rw [← heq.1]
    exact hkv
  · rw [if_neg hk] at heq
    have hfst : kv.1 = k' := by rw [heq]
    refine ⟨tr, ?_, Or.inr ⟨?_, rfl⟩⟩
    · rw [← heq]; exact hkv
    · intro hke
      exact hk (hfst.trans hke)

/-- Helper: membership after `setdefault`. -/
theorem insertOrKeep_mem {α : Type} (l : List (ℤ × α)) (key : ℤ) (tr0 : α)
    (k : ℤ) (tr : α) (h : (k, tr) ∈ insertOrKeep l key tr0) :
    (k, tr) ∈ l ∨ (k = key ∧ tr = tr0) := by
  unfold insertOrKeep at h
  by_cases hk : hasKey l key
  · rw [if_pos hk] at h; exact Or.inl h
  · rw [if_neg hk] at h
    rcases List.mem_append.mp h with h1 | h1
    · exact Or.inl h1
    · right
      have := List.mem_singleton.mp h1
      rw [Prod.mk.injEq] at this
      exact this

/-- Helper: one loop iteration of the cluster plot preserves the base shape
of every stored trace (size-7 marker, visible). -/
theorem addClusterPoint_inv (grouping : String) (mc : ℤ) (colors : List String)
    (t0 t1 : List (ℤ × ScatterTrace)) (p : ClusterPoint)
    (h : addClusterPoint grouping mc colors t0 p = Except.ok t1)
    (h0 : ∀ k tr, (k, tr) ∈ t0 → scatterBase tr) :
    ∀ k tr, (k, tr) ∈ t1 → scatterBase tr := by
  unfold addClusterPoint at h
  cases hcn : pyIntOfString p.cluster_ordered with
  | none =>
    simp only [hcn, toExcept_none, exceptErrorBind] at h
    exact Except.noConfusion h
  | some cn =>
  simp only [hcn, toExcept_some, exceptOkBind] at h
  cases hbs : pyIntOfString p.biosample with
  | none =>
    simp only [hbs, toExcept_none, exceptErrorBind] at h
    exact Except.noConfusion h
  | some bs =>
  simp only [hbs, toExcept_some, exceptOkBind] at h
  cases hcol : pyIndex colors (cn - 1) with
  | error e =>
    simp only [hcol, exceptErrorBind] at h
    exact Except.noConfusion h
  | ok col =>
  simp only [hcol, exceptOkBind] at h
  cases hsym : pyIndex symbolsList (bs - 1) with
  | error e =>
    simp only [hsym, exceptErrorBind] at h
    exact Except.noConfusion h
  | ok sym =>
  simp only [hsym, exceptOkBind] at h
  cases hlg : lookupField p grouping with
  | none =>
    simp only [hlg, toExcept_none, exceptErrorBind] at h
    exact Except.noConfusion h
  | some lg =>
  simp only [hlg, toExcept_some, exceptOkBind] at h
  injection h with h
  subst h
  intro k tr hm
  obtain ⟨tr1, hm1, hcase⟩ := updateVal_mem _ _ _ _ _ hm
  have hbase1 : scatterBase tr1 := by
    rcases insertOrKeep_mem _ _ _ _ _ hm1 with h2 | ⟨_, rfl⟩
    · exact h0 k tr1 h2
    · exact ⟨rfl, rfl⟩
  rcases hcase with ⟨_, rfl⟩ | ⟨_, rfl⟩
  · exact hbase1
  · exact hbase1

/-- Helper: the whole cluster-plot point loop yields only base-shaped
traces. -/
theorem buildScatter_inv (grouping : String) (mc : ℤ) (colors : List String) :
    ∀ (pts : List ClusterPoint) (t0 tout : List (ℤ × ScatterTrace)),
      List.foldlM (addClusterPoint grouping mc colors) t0 pts = Except.ok tout →
      (∀ k tr, (k, tr) ∈ t0 → scatterBase tr) →
      (∀ k tr, (k, tr) ∈ tout → scatterBase tr) := by
  intro pts
  induction pts with
  | nil =>
    intro t0 tout h h0
    rw [List.foldlM_nil] at h
    injection h with h
    subst h
    exact h0
  | cons p ps ih =>
    intro t0 tout h h0
    rw [List.foldlM_cons] at h
    cases h1 : addClusterPoint grouping mc colors t0 p with
    | error e => rw [h1] at h; exact Except.noConfusion h
    | ok t1 =>
      rw [h1] at h
      exact ih t1 tout h (addClusterPoint_inv grouping mc colors t0 t1 p h1 h0)

/-- Helper: after folding the mmu override over a key list, every entry at a
key in the list carries the secondary treatment and every other entry is
untouched. -/
theorem treatScatter_fold (L : List ℤ) :
    ∀ (tin tout : List (ℤ × ScatterTrace)),
      List.foldlM treatScatterKey tin L = Except.ok tout →
      ∀ k tr, (k, tr) ∈ tout →
        (k ∈ L ∧ scatterTreated tr) ∨ (k ∉ L ∧ (k, tr) ∈ tin) := by
  induction L with
  | nil =>
    intro tin tout h k tr hm
    rw [List.foldlM_nil] at h
    injection h with h
    subst h
    exact Or.inr ⟨List.not_mem_nil k, hm⟩
  | cons i L ih =>
    intro tin tout h k tr hm
    rw [List.foldlM_cons] at h
    cases h1 : treatScatterKey tin i with
    | error e => rw [h1] at h; exact Except.noConfusion h
    | ok t1 =>
      rw [h1] at h
      rcases ih t1 tout h k tr hm with ⟨hL, ht⟩ | ⟨hnL, hmem⟩
      · exact Or.inl ⟨List.mem_cons_of_mem i hL, ht⟩
      · unfold treatScatterKey at h1
        by_cases hk : hasKey tin i
        · rw [if_pos hk] at h1
          cases h2 : pyIndex symbolsList (i % 8) with
          | error e => rw [h2] at h1; exact Except.noConfusion h1
          | ok sym =>
            rw [h2] at h1
            injection h1 with h1
            subst h1
            obtain ⟨tr0, htr0, hcase⟩ := updateVal_mem _ _ _ _ _ hmem
            rcases hcase with ⟨rfl, rfl⟩ | ⟨hne, rfl⟩
            · exact Or.inl ⟨List.mem_cons_self _ _, rfl, rfl, rfl⟩
            · refine Or.inr ⟨?_, htr0⟩
              intro hc
              rcases List.mem_cons.mp hc with hc | hc
              · exact hne hc
              · exact hnL hc
        · rw [if_neg hk] at h1; exact Except.noConfusion h1

/-- Helper: one loop iteration of the single-species box plot preserves the
base shape (visible) of every stored trace. -/
theorem addBoxPoint_inv (level : String) (colors : List String)
    (t0 t1 : List (ℤ × BoxTrace)) (p : MRow)
    (h : addBoxPoint level colors t0 p = Except.ok t1)
    (h0 : ∀ k tr, (k, tr) ∈ t0 → boxBase tr) :
    ∀ k tr, (k, tr) ∈ t1 → boxBase tr := by
  unfold addBoxPoint at h
  cases hcn : p.cluster_ordered.map truncInt with
  | none =>
    simp only [hcn, toExcept_none, exceptErrorBind] at h
    exact Except.noConfusion h
  | some cn =>
  simp only [hcn, toExcept_some, exceptOkBind] at h
  cases hcol : colorMod colors (cn - 1) with
  | error e =>
    simp only [hcol, exceptErrorBind] at h
    exact Except.noConfusion h
  | ok col =>
  simp only [hcol, exceptOkBind] at h
  injection h with h
  subst h
  intro k tr hm
  obtain ⟨tr1, hm1, hcase⟩ := updateVal_mem _ _ _ _ _ hm
  have hbase1 : boxBase tr1 := by
    rcases insertOrKeep_mem _ _ _ _ _ hm1 with h2 | ⟨_, rfl⟩
    · exact h0 k tr1 h2
    · exact rfl
  rcases hcase with ⟨_, rfl⟩ | ⟨_, rfl⟩
  · exact hbase1
  · exact hbase1

/-- Helper: the whole box-plot point loop yields only base-shaped traces. -/
theorem buildBox_inv (level : String) (colors : List String) :
    ∀ (pts : List MRow) (t0 tout : List (ℤ × BoxTrace)),
      List.foldlM (addBoxPoint level colors) t0 pts = Except.ok tout →
      (∀ k tr, (k, tr) ∈ t0 → boxBase tr) →
      (∀ k tr, (k, tr) ∈ tout → boxBase tr) := by
  intro pts
  induction pts with
  | nil =>
    intro t0 tout h h0
    rw [List.foldlM_nil] at h
    injection h with h
    subst h
    exact h0
  | cons p ps ih =>
    intro t0 tout h h0
    rw [List.foldlM_cons] at h
    cases h1 : addBoxPoint level colors t0 p with
    | error e => rw [h1] at h; exact Except.noConfusion h
    | ok t1 =>
      rw [h1] at h
      exact ih t1 tout h (addBoxPoint_inv level colors t0 t1 p h1 h0)

/-- Helper: the mmu box override treats exactly the keys of the folded
list. -/
theorem treatBox_fold (L : List ℤ) :
    ∀ (tin tout : List (ℤ × BoxTrace)),
      List.foldlM treatBoxKey tin L = Except.ok tout →
      ∀ k tr, (k, tr) ∈ tout →
        (k ∈ L ∧ boxTreated tr) ∨ (k ∉ L ∧ (k, tr) ∈ tin) := by
  induction L with
  | nil =>
    intro tin tout h k tr hm
    rw [List.foldlM_nil] at h
    injection h with h
    subst h
    exact Or.inr ⟨List.not_mem_nil k, hm⟩
  | cons i L ih =>
    intro tin tout h k tr hm
    rw [List.foldlM_cons] at h
    cases h1 : treatBoxKey tin i with
    | error e => rw [h1] at h; exact Except.noConfusion h
    | ok t1 =>
      rw [h1] at h
      rcases ih t1 tout h k tr hm with ⟨hL, ht⟩ | ⟨hnL, hmem⟩
      · exact Or.inl ⟨List.mem_cons_of_mem i hL, ht⟩
      · unfold treatBoxKey at h1
        by_cases hk : hasKey tin i
        · rw [if_pos hk] at h1
          injection h1 with h1
          subst h1
          obtain ⟨tr0, htr0, hcase⟩ := updateVal_mem _ _ _ _ _ hmem
          rcases hcase with ⟨rfl, rfl⟩ | ⟨hne, rfl⟩
          · exact Or.inl ⟨List.mem_cons_self _ _, rfl, rfl, rfl⟩
          · refine Or.inr ⟨?_, htr0⟩
            intro hc
            rcases List.mem_cons.mp hc with hc | hc
            · exact hne hc
            · exact hnL hc
        · rw [if_neg hk] at h1; exact Except.noConfusion h1

/-- Helper: the override key list is exactly the integer range 17–22. -/
theorem mem_override_range_iff (k : ℤ) :
    k ∈ ([17, 18, 19, 20, 21, 22] : List ℤ) ↔ (17 ≤ k ∧ k ≤ 22) := by
  simp only [List.mem_cons, List.not_mem_nil, or_false]
  omega

/-- C8: for species `"mmu"` both the cluster scatter and the single-species
box builder cap the max cluster count at 16 regardless of the observed data,
and — on every input on which they succeed — apply the secondary visual
treatment (enlarged/black/legend-only markers, resp. black/legend-only
boxes) to exactly the groups whose derived group index lies in 17–22. -/
theorem c8_mmu_cap_and_treatment :
    (∀ (pts : List ClusterPoint) (m : ℤ),
      maxClusterScatter "mmu" pts = Except.ok m → m = 16) ∧
    (∀ (grouping : String) (pts : List ClusterPoint)
        (out : List (ℤ × ScatterTrace)),
      getClusterPlot "mmu" grouping pts = Except.ok out →
      ∀ k tr, (k, tr) ∈ out → ((17 ≤ k ∧ k ≤ 22) ↔ scatterTreated tr)) ∧
    (∀ (pts : List MRow) (m : ℤ),
      maxClusterBox "mmu" pts = Except.ok m → m = 16) ∧
    (∀ (gene level : String) (sOk : Bool) (gdb : List GeneRec)
        (pts : List MRow) (out : BoxPlotOut),
      getMchBox "mmu" gene level sOk gdb pts = Except.ok out →
      ∀ k tr, (k, tr) ∈ out.traces → ((17 ≤ k ∧ k ≤ 22) ↔ boxTreated tr)) := by
  have hmaxS : ∀ (pts : List ClusterPoint) (m : ℤ),
      maxClusterScatter "mmu" pts = Except.ok m → m = 16 := by
    intro pts m h
    unfold maxClusterScatter at h
    cases hv : pts.mapM (fun p => pyIntOfString p.cluster_ordered) with
    | none =>
      simp only [hv, toExcept_none, exceptErrorBind] at h
      exact Except.noConfusion h
    | some vals =>
      simp only [hv, toExcept_some, exceptOkBind] at h
      simp only [if_true] at h
      injection h with h
      exact h.symm
  have hmaxB : ∀ (pts : List MRow) (m : ℤ),
      maxClusterBox "mmu" pts = Except.ok m → m = 16 := by
    intro pts m h
    unfold maxClusterBox at h
    cases hv : pts.mapM (fun r => r.cluster_ordered.map truncInt) with
    | none =>
      simp only [hv, toExcept_none, exceptErrorBind] at h
      exact Except.noConfusion h
    | some vals =>
      simp only [hv, toExcept_some, exceptOkBind] at h
      simp only [if_true] at h
      injection h with h
      exact h.symm
  refine ⟨hmaxS, ?_, hmaxB, ?_⟩
  · intro grouping pts out h
    unfold getClusterPlot at h
    by_cases hpts : pts = []
    · rw [if_pos hpts] at h; exact Except.noConfusion h
    rw [if_neg hpts] at h
    cases hmc : maxClusterScatter "mmu" pts with
    | error e =>
      simp only [hmc, exceptErrorBind] at h
      exact Except.noConfusion h
    | ok mc =>
      simp only [hmc, exceptOkBind] at h
      have h16 := hmaxS pts mc hmc
      subst h16
      rw [if_neg (by decide : ¬(16 : ℤ) < 0)] at h
      cases htr : pts.foldlM
          (addClusterPoint grouping 16 (generateClusterColors (16 : ℤ).toNat)) [] with
      | error e =>
        simp only [htr, exceptErrorBind] at h
        exact Except.noConfusion h
      | ok traces =>
        simp only [htr, exceptOkBind, if_true] at h
        have hbase : ∀ k tr, (k, tr) ∈ traces → scatterBase tr :=
          buildScatter_inv grouping 16 _ pts [] traces htr
            (by intro k tr hm; cases hm)
        intro k tr hm
        rcases treatScatter_fold _ traces out h k tr hm with ⟨hL, ht⟩ | ⟨hnL, hmem⟩
        · exact ⟨fun _ => ht, fun _ => (mem_override_range_iff k).mp hL⟩
        · constructor
          · intro hb
            exact absurd ((mem_override_range_iff k).mpr hb) hnL
          · intro ht
            have h715 : (7 : ℤ) = 15 := ((hbase k tr hmem).1).symm.trans ht.1
            exact absurd h715 (by decide)
  · intro gene level sOk gdb pts out h
    unfold getMchBox at h
    by_cases hpts : pts = []
    · rw [if_pos hpts] at h; exact Except.noConfusion h
    rw [if_neg hpts] at h
    cases hmc : maxClusterBox "mmu" pts with
    | error e =>
      simp only [hmc, exceptErrorBind] at h
      exact Except.noConfusion h
    | ok mc =>
      simp only [hmc, exceptOkBind] at h
      have h16 := hmaxB pts mc hmc
      subst h16
      rw [if_neg (by decide : ¬(16 : ℤ) < 0)] at h
      cases htr : pts.foldlM
          (addBoxPoint level (generateClusterColors (16 : ℤ).toNat)) [] with
      | error e =>
        simp only [htr, exceptErrorBind] at h
        exact Except.noConfusion h
      | ok traces =>
        simp only [htr, exceptOkBind, if_true] at h
        cases hov : mmuOverrideBox traces with
        | error e =>
          simp only [hov, exceptErrorBind] at h
          exact Except.noConfusion h
        | ok traces2 =>
          simp only [hov, exceptOkBind] at h
          cases hg : geneNameOf sOk gdb gene with
          | error e =>
            simp only [hg, exceptErrorBind] at h
            exact Except.noConfusion h
          | ok gname =>
            simp only [hg, exceptOkBind] at h
            injection h with h
            subst h
            have hbase : ∀ k tr, (k, tr) ∈ traces → boxBase tr :=
              buildBox_inv level _ pts [] traces htr
                (by intro k tr hm; cases hm)
            intro k tr hm
            rcases treatBox_fold _ traces traces2 hov k tr hm with ⟨hL, ht⟩ | ⟨hnL, hmem⟩
            · exact ⟨fun _ => ht, fun _ => (mem_override_range_iff k).mp hL⟩
            · constructor
              · intro hb
                exact absurd ((mem_override_range_iff k).mpr hb) hnL
              · intro ht
                have hsv : Vis.shown = Vis.legendOnly :=
                  (hbase k tr hmem).symm.trans ht.2.2
                exact Vis.noConfusion hsv

/-- Witness for C8: concrete successful mmu runs of both builders whose
groups 17–22 all exist; the caps and the treatment characterization are
instantiated on them. -/
theorem c8_mmu_cap_and_treatment_witness :
    ((16 : ℤ) = 16) ∧ ((16 : ℤ) = 16) ∧
    (∀ k tr, (k, tr) ∈ c8scatterOut → ((17 ≤ k ∧ k ≤ 22) ↔ scatterTreated tr)) ∧
    (∀ k tr, (k, tr) ∈ c8boxOut.traces → ((17 ≤ k ∧ k ≤ 22) ↔ boxTreated tr)) :=
  ⟨c8_mmu_cap_and_treatment.1 c8pts 16 (by decide),
   c8_mmu_cap_and_treatment.2.2.1 c8bpts 16 (by decide),
   c8_mmu_cap_and_treatment.2.1 "cluster_name" c8pts c8scatterOut (by decide),
   c8_mmu_cap_and_treatment.2.2.2 "ENSMUSG0001" "normalized" true gdb1 c8bpts
     c8boxOut (by decide)⟩
